import Mathlib

/-!
Verification of the retrieval-strategy engine in
`fu_playground/retriver_demo_low/retriver_demo.py`.

The Python source is shallowly embedded: dictionaries with a fixed key set
become structures with `Option` fields (a missing key is `none`, and
`dict.get(k, d)` becomes `Option.getD`), Python floats become `Rat`,
fallible calls become `Except String`, and the asynchronous backend clients
become explicit function fields so that backend failures and the
"client never configured" state are both expressible.
-/

set_option maxHeartbeats 1000000

/-- Substring containment, the embedding of Python's `sub in s` on strings. -/
def strContains (s pat : String) : Bool :=
  decide (pat.toList <:+: s.toList)

/-- Python's `str.lower()`, embedded characterwise (ASCII case folding; the
keyword lists the code compares against are ASCII or Chinese, which this
maps like Python does). -/
def strToLower (s : String) : String := String.mk (s.toList.map Char.toLower)

/-- Helper for `pySplitWhitespace`: accumulates the current token (reversed)
while scanning the character list. -/
def pySplitAux (cur : List Char) : List Char → List String
  | [] => if cur = [] then [] else [String.mk cur.reverse]
  | c :: cs =>
    if c.isWhitespace then
      if cur = [] then pySplitAux [] cs
      else String.mk cur.reverse :: pySplitAux [] cs
    else pySplitAux (c :: cur) cs

/-- Python `str.split()` with no separator: split on maximal whitespace runs,
discarding empty pieces (so the empty string yields zero tokens). -/
def pySplitWhitespace (s : String) : List String := pySplitAux [] s.toList

/-- `class SearchStrategy(Enum)` (retriver_demo.py lines 40-46). -/
inductive SearchStrategy where
  | vector
  | keyword
  | hybrid
  | web
  | crm
deriving DecidableEq

/-- The `.value` attribute of the `SearchStrategy` enum members. -/
def SearchStrategy.value : SearchStrategy → String
  | .vector => "vector"
  | .keyword => "keyword"
  | .hybrid => "hybrid"
  | .web => "web"
  | .crm => "crm"

/-- `SearchStrategy(str)` enum construction: raises `ValueError` on an
unknown tag, embedded as `Except.error`. -/
def SearchStrategy.ofString (s : String) : Except String SearchStrategy :=
  if s = "vector" then .ok .vector
  else if s = "keyword" then .ok .keyword
  else if s = "hybrid" then .ok .hybrid
  else if s = "web" then .ok .web
  else if s = "crm" then .ok .crm
  else .error (s ++ " is not a valid SearchStrategy")

/-- The `filters` mapping passed through context; the code reads the keys
`ws_id`, `time_range` and `doc_type`. -/
structure Filters where
  ws_id : Option String := none
  time_range : Option String := none
  doc_type : Option String := none
deriving DecidableEq

/-- The `context` mapping: the code reads `doc_type`, `caller_agent`,
`filters`, `limit` and `score_threshold`. -/
structure Context where
  doc_type : Option String := none
  caller_agent : Option String := none
  filters : Option Filters := none
  limit : Option Nat := none
  score_threshold : Option Rat := none

/-- The search-parameters dictionary built by `_build_search_parameters`:
keys that may be absent are `Option` fields. -/
structure Parameters where
  limit : Option Nat := none
  score_threshold : Option Rat := none
  search_fields : Option (List String) := none
  vector_weight : Option Rat := none
  keyword_weight : Option Rat := none
deriving DecidableEq

/-- `@dataclass SearchResult` / the result dictionaries produced by the
dispatchers (content, score, metadata, source, chunk_id). -/
structure SearchResult where
  content : String
  score : Rat
  metadata : List (String × String) := []
  source : String := ""
  chunk_id : Option String := none
deriving DecidableEq

/-- The fallback dictionary returned by `_get_fallback_strategy`. -/
structure FallbackDict where
  strategy_type : String
  data_source : String
deriving DecidableEq

/-- `@dataclass RetrievalStrategy` (retriver_demo.py lines 59-68). -/
structure RetrievalStrategy where
  strategy_type : SearchStrategy
  data_source : String
  query : String
  original_query : String
  filters : Filters := {}
  parameters : Parameters := {}
  fallback_strategy : Option FallbackDict := none

/-- The strategy dictionary returned by `think_retrieval_strategy`
(strategy_type still a string, as in the source). -/
structure StrategyDict where
  strategy_type : String
  data_source : String
  query : String
  original_query : String
  filters : Filters
  parameters : Parameters
  fallback_strategy : Option FallbackDict

/-- `RetrieverTools._rewrite_query_if_needed` (lines 139-146). -/
def rewrite_query_if_needed (query : String) (_context : Context) : String :=
  if (pySplitWhitespace query).length < 3 then
    query ++ " 相关信息和详细内容"
  else
    query

/-- The fixed recency-keyword list of `_select_search_strategy` line 154. -/
def recencyKeywords : List String := ["最新", "新闻", "实时", "current", "latest"]

/-- `any(keyword in query.lower() for keyword in [...])` (line 154). -/
def hasRecencyKeyword (query : String) : Bool :=
  recencyKeywords.any (fun k => strContains (strToLower query) k)

/-- `RetrieverTools._select_search_strategy` (lines 148-166). -/
def select_search_strategy (query : String) (context : Context) : SearchStrategy :=
  let doc_type := context.doc_type.getD "auto"
  if hasRecencyKeyword query then .web
  else if doc_type = "pdf" ∨ strContains query "文档" = true then .vector
  else if strContains query "\"" = true ∨ strContains query "`" = true then .keyword
  else .hybrid

/-- `RetrieverTools._get_data_source_for_strategy` (lines 168-177). -/
def get_data_source_for_strategy (strategy : SearchStrategy) : String :=
  match strategy with
  | .vector => "zilliz_cloud"
  | .keyword => "opensearch"
  | .hybrid => "zilliz_cloud"
  | .web => "duckduckgo"
  | .crm => "crm_api"

/-- `RetrieverTools._build_search_parameters` (lines 179-196). -/
def build_search_parameters (_query : String) (context : Context)
    (strategy : SearchStrategy) : Parameters :=
  let params : Parameters :=
    { limit := some (context.limit.getD 10)
      score_threshold := some (context.score_threshold.getD (Rat.mk' 1 2)) }
  match strategy with
  | .vector => { params with search_fields := some ["content", "summary"] }
  | .keyword => { params with search_fields := some ["title", "content", "keywords"] }
  | .hybrid => { params with vector_weight := some (Rat.mk' 7 10),
                             keyword_weight := some (Rat.mk' 3 10) }
  | _ => params

/-- `RetrieverTools._get_fallback_strategy` (lines 198-212). -/
def get_fallback_strategy (primary_strategy : SearchStrategy) : Option FallbackDict :=
  let fallback : Option SearchStrategy :=
    match primary_strategy with
    | .vector => some .keyword
    | .keyword => some .web
    | .hybrid => some .keyword
    | _ => none
  match fallback with
  | some fb => some { strategy_type := fb.value
                      data_source := get_data_source_for_strategy fb }
  | none => none

/-- `RetrieverTools.think_retrieval_strategy` (lines 106-137). -/
def think_retrieval_strategy (query : String) (context : Context) : StrategyDict :=
  let rewritten_query := rewrite_query_if_needed query context
  let strategy := select_search_strategy rewritten_query context
  let parameters := build_search_parameters rewritten_query context strategy
  { strategy_type := strategy.value
    data_source := get_data_source_for_strategy strategy
    query := rewritten_query
    original_query := query
    filters := context.filters.getD {}
    parameters := parameters
    fallback_strategy := get_fallback_strategy strategy }

/-- Helper: the selector only ever returns one of the four reachable tags. -/
theorem select_search_strategy_cases (q : String) (ctx : Context) :
    select_search_strategy q ctx = .vector ∨ select_search_strategy q ctx = .keyword
      ∨ select_search_strategy q ctx = .hybrid ∨ select_search_strategy q ctx = .web := by
  unfold select_search_strategy
  by_cases h1 : hasRecencyKeyword q = true
  · simp [h1]
  · by_cases h2 : ctx.doc_type.getD "auto" = "pdf" ∨ strContains q "文档" = true
    · simp [h1, h2]
    · by_cases h3 : strContains q "\"" = true ∨ strContains q "`" = true
      · simp [h1, h2, h3]
      · simp [h1, h2, h3]

/-- C1: the strategy selector applies its four rules in fixed order: recency
keyword → `web`; else pdf doc_type or 文档 marker → `vector`; else a double
quote or backtick → `keyword`; else `hybrid`.  In particular a query with a
recency keyword always yields `web`, whatever the rest of the query or the
context says. -/
theorem select_strategy_rule_order (q : String) (ctx : Context) :
    (hasRecencyKeyword q = true → select_search_strategy q ctx = .web)
  ∧ (hasRecencyKeyword q = false →
      (ctx.doc_type.getD "auto" = "pdf" ∨ strContains q "文档" = true) →
      select_search_strategy q ctx = .vector)
  ∧ (hasRecencyKeyword q = false → ¬ctx.doc_type.getD "auto" = "pdf" →
      strContains q "文档" = false →
      (strContains q "\"" = true ∨ strContains q "`" = true) →
      select_search_strategy q ctx = .keyword)
  ∧ (hasRecencyKeyword q = false → ¬ctx.doc_type.getD "auto" = "pdf" →
      strContains q "文档" = false → strContains q "\"" = false →
      strContains q "`" = false →
      select_search_strategy q ctx = .hybrid) := by
  refine ⟨fun h => ?_, fun h hd => ?_, fun h hp hd hq => ?_, fun h hp hd h1 h2 => ?_⟩
  · simp [select_search_strategy, h]
  · rcases hd with hd | hd <;> simp [select_search_strategy, h, hd]
  · rcases hq with hq | hq <;> simp [select_search_strategy, h, hp, hd, hq]
  · simp [select_search_strategy, h, hp, hd, h1, h2]

/-- Witness for C1 at a concrete input: a recency keyword wins even when the
context asks for pdf handling. -/
theorem select_strategy_rule_order_witness :
    select_search_strategy "latest x" { doc_type := some "pdf" } = .web :=
  (select_strategy_rule_order "latest x" { doc_type := some "pdf" }).1 (by decide)

/-- C2: queries of fewer than 3 whitespace tokens are rewritten by appending
the fixed elaboration suffix, longer ones pass through unchanged; the
selector reads the rewritten text while `original_query` keeps the input
verbatim; the empty query tokenizes to nothing and is hence rewritten. -/
theorem think_query_rewrite (q : String) (ctx : Context) :
    (think_retrieval_strategy q ctx).query = rewrite_query_if_needed q ctx
  ∧ rewrite_query_if_needed q ctx
      = (if (pySplitWhitespace q).length < 3 then q ++ " 相关信息和详细内容" else q)
  ∧ (think_retrieval_strategy q ctx).original_query = q
  ∧ (think_retrieval_strategy q ctx).strategy_type
      = (select_search_strategy (rewrite_query_if_needed q ctx) ctx).value
  ∧ pySplitWhitespace "" = []
  ∧ rewrite_query_if_needed "" ctx = " 相关信息和详细内容" :=
  ⟨rfl, rfl, rfl, rfl, rfl, rfl⟩

/-- C7: the data-source and fallback tables are the fixed ones of the code;
`web` and `crm` have no fallback, and every fallback entry pairs the fallback
tag with that tag's own data source. -/
theorem strategy_tables (q : String) (ctx : Context) :
    get_data_source_for_strategy .vector = "zilliz_cloud"
  ∧ get_data_source_for_strategy .keyword = "opensearch"
  ∧ get_data_source_for_strategy .hybrid = "zilliz_cloud"
  ∧ get_data_source_for_strategy .web = "duckduckgo"
  ∧ get_data_source_for_strategy .crm = "crm_api"
  ∧ get_fallback_strategy .vector = some { strategy_type := "keyword", data_source := "opensearch" }
  ∧ get_fallback_strategy .keyword = some { strategy_type := "web", data_source := "duckduckgo" }
  ∧ get_fallback_strategy .hybrid = some { strategy_type := "keyword", data_source := "opensearch" }
  ∧ get_fallback_strategy .web = none
  ∧ get_fallback_strategy .crm = none
  ∧ (∀ st fb, get_fallback_strategy st = some fb →
      ∃ fbSt, SearchStrategy.ofString fb.strategy_type = .ok fbSt
        ∧ fb.strategy_type = fbSt.value
        ∧ fb.data_source = get_data_source_for_strategy fbSt)
  ∧ (think_retrieval_strategy q ctx).data_source
      = get_data_source_for_strategy (select_search_strategy (rewrite_query_if_needed q ctx) ctx)
  ∧ (think_retrieval_strategy q ctx).fallback_strategy
      = get_fallback_strategy (select_search_strategy (rewrite_query_if_needed q ctx) ctx) := by
  refine ⟨rfl, rfl, rfl, rfl, rfl, rfl, rfl, rfl, rfl, rfl, ?_, rfl, rfl⟩
  intro st fb h
  cases st with
  | vector =>
      obtain rfl : fb = ⟨"keyword", "opensearch"⟩ := by
        simpa [get_fallback_strategy] using h.symm
      exact ⟨.keyword, rfl, rfl, rfl⟩
  | keyword =>
      obtain rfl : fb = ⟨"web", "duckduckgo"⟩ := by
        simpa [get_fallback_strategy] using h.symm
      exact ⟨.web, rfl, rfl, rfl⟩
  | hybrid =>
      obtain rfl : fb = ⟨"keyword", "opensearch"⟩ := by
        simpa [get_fallback_strategy] using h.symm
      exact ⟨.keyword, rfl, rfl, rfl⟩
  | web => simp [get_fallback_strategy] at h
  | crm => simp [get_fallback_strategy] at h

/-- Witness for C7 at a concrete entry of the fallback table. -/
theorem strategy_tables_witness :
    ∃ fbSt, SearchStrategy.ofString "keyword" = .ok fbSt
      ∧ "keyword" = fbSt.value ∧ "opensearch" = get_data_source_for_strategy fbSt :=
  (strategy_tables "q" {}).2.2.2.2.2.2.2.2.2.2.1 .vector ⟨"keyword", "opensearch"⟩ rfl

/-- C10: the selector can never produce the `crm` tag: every selection is one
of vector, keyword, hybrid or web, and the strategy record built by
`think_retrieval_strategy` never carries the string tag "crm". -/
theorem select_never_crm (q : String) (ctx : Context) :
    (select_search_strategy q ctx = .vector ∨ select_search_strategy q ctx = .keyword
      ∨ select_search_strategy q ctx = .hybrid ∨ select_search_strategy q ctx = .web)
  ∧ select_search_strategy q ctx ≠ .crm
  ∧ (think_retrieval_strategy q ctx).strategy_type ≠ "crm" := by
  refine ⟨select_search_strategy_cases q ctx, ?_, ?_⟩
  · rcases select_search_strategy_cases q ctx with h | h | h | h <;> simp [h]
  · have hv : (think_retrieval_strategy q ctx).strategy_type
        = (select_search_strategy (rewrite_query_if_needed q ctx) ctx).value := rfl
    rw [hv]
    rcases select_search_strategy_cases (rewrite_query_if_needed q ctx) ctx with
      h | h | h | h <;> simp [h, SearchStrategy.value]

/-- The deduplication key of `_post_process_results`: the first 100
characters of `content` (Python `content[:100]`). -/
def dedupKey (r : SearchResult) : String := String.mk (r.content.toList.take 100)

/-- The dedup loop of `_post_process_results` (lines 609-617): `seen` is the
set of keys already kept, the first occurrence of each key wins. -/
def dedup_loop (seen : List String) : List SearchResult → List SearchResult
  | [] => []
  | r :: rs =>
    if dedupKey r ∈ seen then dedup_loop seen rs
    else r :: dedup_loop (dedupKey r :: seen) rs

/-- Step 1 of `_post_process_results`: deduplication with an empty seen set. -/
def dedup_results (results : List SearchResult) : List SearchResult :=
  dedup_loop [] results

/-- One insertion step of a stable descending sort by score: the new element
goes in front of the first element whose score is not larger, so earlier
elements keep their place on ties. -/
def insertByScore (x : SearchResult) : List SearchResult → List SearchResult
  | [] => [x]
  | y :: ys => if y.score ≤ x.score then x :: y :: ys else y :: insertByScore x ys

/-- Step 2 of `_post_process_results`: Python's stable
`sort(key=score, reverse=True)`, embedded as a stable insertion sort (any
stable sort under the same total preorder produces the same list). -/
def sortByScoreDesc (l : List SearchResult) : List SearchResult :=
  l.foldr insertByScore []

/-- `RetrieverAgent._post_process_results` (lines 606-631): dedup, stable
sort by descending score, threshold filter, truncate to limit. -/
def post_process_results (results : List SearchResult)
    (strategy : RetrievalStrategy) : List SearchResult :=
  let unique_results := dedup_results results
  let sorted_results := sortByScoreDesc unique_results
  let threshold := strategy.parameters.score_threshold.getD (Rat.mk' 1 2)
  let filtered_results := sorted_results.filter (fun r => threshold ≤ r.score)
  let limit := strategy.parameters.limit.getD 10
  filtered_results.take limit

/-- The dedup loop emits pairwise-distinct keys, none of them in `seen`. -/
theorem dedup_loop_key_spec (rs : List SearchResult) : ∀ seen,
    List.Pairwise (fun a b => dedupKey a ≠ dedupKey b) (dedup_loop seen rs)
    ∧ ∀ r ∈ dedup_loop seen rs, dedupKey r ∉ seen := by
  induction rs with
  | nil => intro seen; simp [dedup_loop]
  | cons r rs ih =>
    intro seen
    by_cases h : dedupKey r ∈ seen
    · simpa [dedup_loop, h] using ih seen
    · simp only [dedup_loop, if_neg h]
      obtain ⟨ihp, ihs⟩ := ih (dedupKey r :: seen)
      refine ⟨List.pairwise_cons.mpr ⟨?_, ihp⟩, ?_⟩
      · intro b hb
        have hnb := ihs b hb
        simp only [List.mem_cons, not_or] at hnb
        exact fun he => hnb.1 he.symm
      · intro x hx
        rcases List.mem_cons.mp hx with rfl | hx'
        · exact h
        · exact fun hc => ihs x hx' (List.mem_cons_of_mem _ hc)

/-- Every element the dedup loop keeps is the first occurrence of its key in
the input list. -/
theorem dedup_loop_find (rs : List SearchResult) : ∀ seen r, r ∈ dedup_loop seen rs →
    dedupKey r ∉ seen
    ∧ rs.find? (fun x => decide (dedupKey x = dedupKey r)) = some r := by
  induction rs with
  | nil => intro seen r h; simp [dedup_loop] at h
  | cons a rs ih =>
    intro seen r h
    by_cases ha : dedupKey a ∈ seen
    · rw [dedup_loop, if_pos ha] at h
      obtain ⟨hns, hf⟩ := ih seen r h
      have hne : dedupKey a ≠ dedupKey r := fun he => hns (he ▸ ha)
      exact ⟨hns, by rw [List.find?_cons_of_neg _ (by simpa using hne), hf]⟩
    · rw [dedup_loop, if_neg ha] at h
      rcases List.mem_cons.mp h with rfl | h'
      · exact ⟨ha, List.find?_cons_of_pos _ (by simp)⟩
      · obtain ⟨hns, hf⟩ := ih _ r h'
        simp only [List.mem_cons, not_or] at hns
        exact ⟨hns.2, by rw [List.find?_cons_of_neg _ (by simpa using fun he => hns.1 he.symm), hf]⟩

/-- Membership through one insertion step. -/
theorem mem_insertByScore (x a : SearchResult) (l : List SearchResult) :
    a ∈ insertByScore x l ↔ a = x ∨ a ∈ l := by
  induction l with
  | nil => simp [insertByScore]
  | cons y ys ih =>
    by_cases h : y.score ≤ x.score
    · simp [insertByScore, h]
    · simp [insertByScore, h, ih]
      tauto

/-- One insertion step is a permutation. -/
theorem insertByScore_perm (x : SearchResult) (l : List SearchResult) :
    List.Perm (insertByScore x l) (x :: l) := by
  induction l with
  | nil => rfl
  | cons y ys ih =>
    by_cases h : y.score ≤ x.score
    · rw [insertByScore, if_pos h]
    · rw [insertByScore, if_neg h]
      exact (ih.cons y).trans (List.Perm.swap x y ys)

/-- The stable sort is a permutation of its input. -/
theorem sortByScoreDesc_perm (l : List SearchResult) : List.Perm (sortByScoreDesc l) l := by
  induction l with
  | nil => rfl
  | cons x xs ih => exact (insertByScore_perm x (sortByScoreDesc xs)).trans (ih.cons x)

/-- One insertion step preserves the descending order. -/
theorem insertByScore_sorted (x : SearchResult) (l : List SearchResult)
    (h : List.Pairwise (fun a b => b.score ≤ a.score) l) :
    List.Pairwise (fun a b => b.score ≤ a.score) (insertByScore x l) := by
  induction l with
  | nil => simp [insertByScore]
  | cons y ys ih =>
    obtain ⟨hy, hys⟩ := List.pairwise_cons.mp h
    by_cases hc : y.score ≤ x.score
    · rw [insertByScore, if_pos hc]
      refine List.pairwise_cons.mpr ⟨?_, h⟩
      intro b hb
      rcases List.mem_cons.mp hb with rfl | hb'
      · exact hc
      · exact le_trans (hy b hb') hc
    · rw [insertByScore, if_neg hc]
      refine List.pairwise_cons.mpr ⟨?_, ih hys⟩
      intro b hb
      rcases (mem_insertByScore x b ys).mp hb with rfl | hb'
      · exact le_of_not_le hc
      · exact hy b hb'

/-- The stable sort produces non-increasing scores. -/
theorem sortByScoreDesc_sorted (l : List SearchResult) :
    List.Pairwise (fun a b => b.score ≤ a.score) (sortByScoreDesc l) := by
  induction l with
  | nil => exact List.Pairwise.nil
  | cons x xs ih => exact insertByScore_sorted x (sortByScoreDesc xs) ih

/-- Stability, elementwise: restricted to one score value, an insertion step
either prepends the new element (when it has that score) or leaves the
restriction unchanged. -/
theorem filter_score_insertByScore (s : Rat) (x : SearchResult) (l : List SearchResult) :
    (insertByScore x l).filter (fun r => decide (r.score = s))
      = if x.score = s then x :: l.filter (fun r => decide (r.score = s))
        else l.filter (fun r => decide (r.score = s)) := by
  induction l with
  | nil => by_cases h : x.score = s <;> simp [insertByScore, h]
  | cons y ys ih =>
    by_cases hc : y.score ≤ x.score
    · rw [insertByScore, if_pos hc]
      by_cases hx : x.score = s <;> simp [List.filter_cons, hx]
    · rw [insertByScore, if_neg hc]
      by_cases hy : y.score = s
      · have hx : ¬x.score = s := fun he => hc (le_of_eq (hy.trans he.symm))
        simp [List.filter_cons, hy, hx, ih]
      · by_cases hx : x.score = s <;> simp [List.filter_cons, hy, hx, ih]

/-- Stability of the sort: restricted to any single score value, the sorted
list keeps exactly the input order. -/
theorem filter_score_sortByScoreDesc (s : Rat) (l : List SearchResult) :
    (sortByScoreDesc l).filter (fun r => decide (r.score = s))
      = l.filter (fun r => decide (r.score = s)) := by
  induction l with
  | nil => rfl
  | cons x xs ih =>
    show (insertByScore x (sortByScoreDesc xs)).filter _ = _
    rw [filter_score_insertByScore]
    by_cases hx : x.score = s <;> simp [List.filter_cons, hx, ih]

/-- A list whose keys are pairwise distinct and avoid `seen` passes the
dedup loop unchanged. -/
theorem dedup_loop_eq_self (l : List SearchResult) : ∀ seen,
    List.Pairwise (fun a b => dedupKey a ≠ dedupKey b) l →
    (∀ r ∈ l, dedupKey r ∉ seen) → dedup_loop seen l = l := by
  induction l with
  | nil => intros; rfl
  | cons r rs ih =>
    intro seen hp hs
    have hn : dedupKey r ∉ seen := hs r (List.mem_cons_self r rs)
    rw [dedup_loop, if_neg hn]
    congr 1
    refine ih _ (List.pairwise_cons.mp hp).2 ?_
    intro x hx hc
    rcases List.mem_cons.mp hc with he | hc'
    · exact (List.pairwise_cons.mp hp).1 x hx he.symm
    · exact hs x (List.mem_cons_of_mem _ hx) hc'

/-- A list already sorted by descending score is a fixed point of the sort. -/
theorem sortByScoreDesc_eq_self (l : List SearchResult)
    (h : List.Pairwise (fun a b => b.score ≤ a.score) l) :
    sortByScoreDesc l = l := by
  induction l with
  | nil => rfl
  | cons x xs ih =>
    obtain ⟨hx, hxs⟩ := List.pairwise_cons.mp h
    show insertByScore x (sortByScoreDesc xs) = x :: xs
    rw [ih hxs]
    cases xs with
    | nil => rfl
    | cons y ys => rw [insertByScore, if_pos (hx y (List.mem_cons_self y ys))]

/-- `l.take n` is a prefix of `l`. -/
theorem takeIsPrefixOf {α : Type} (n : Nat) (l : List α) : l.take n <+: l :=
  ⟨l.drop n, List.take_append_drop n l⟩

/-- `filter` maps prefixes to prefixes. -/
theorem filterPrefixOfPrefix {α : Type} (p : α → Bool) {l₁ l₂ : List α}
    (h : l₁ <+: l₂) : l₁.filter p <+: l₂.filter p := by
  obtain ⟨t, rfl⟩ := h
  exact ⟨t.filter p, (List.filter_append _ _).symm⟩

/-- Prefixes compose. -/
theorem prefixTrans {α : Type} {l₁ l₂ l₃ : List α}
    (h1 : l₁ <+: l₂) (h2 : l₂ <+: l₃) : l₁ <+: l₃ := by
  obtain ⟨t1, rfl⟩ := h1
  obtain ⟨t2, rfl⟩ := h2
  exact ⟨t1 ++ t2, (List.append_assoc _ _ _).symm⟩

/-- The post-processor output has pairwise distinct dedup keys. -/
theorem post_out_key_pairwise (results : List SearchResult) (strategy : RetrievalStrategy) :
    List.Pairwise (fun a b => dedupKey a ≠ dedupKey b)
      (post_process_results results strategy) := by
  have hd := (dedup_loop_key_spec results []).1
  have hs : List.Pairwise (fun a b => dedupKey a ≠ dedupKey b)
      (sortByScoreDesc (dedup_results results)) :=
    (List.Perm.pairwise_iff (fun hxy => Ne.symm hxy)
      (sortByScoreDesc_perm (dedup_results results))).mpr hd
  exact List.Pairwise.sublist (List.take_sublist _ _) (List.Pairwise.filter _ hs)

/-- The post-processor output is sorted by non-increasing score. -/
theorem post_out_sorted (results : List SearchResult) (strategy : RetrievalStrategy) :
    List.Pairwise (fun a b => b.score ≤ a.score)
      (post_process_results results strategy) :=
  List.Pairwise.sublist (List.take_sublist _ _)
    (List.Pairwise.filter _ (sortByScoreDesc_sorted (dedup_results results)))

/-- Every post-processor output element survives the threshold filter. -/
theorem post_out_threshold (results : List SearchResult) (strategy : RetrievalStrategy) :
    ∀ r ∈ post_process_results results strategy,
      strategy.parameters.score_threshold.getD (Rat.mk' 1 2) ≤ r.score := by
  intro r hr
  exact of_decide_eq_true (List.mem_filter.mp (List.mem_of_mem_take hr)).2

/-- The post-processor output length is bounded by the limit. -/
theorem post_out_length (results : List SearchResult) (strategy : RetrievalStrategy) :
    (post_process_results results strategy).length
      ≤ strategy.parameters.limit.getD 10 :=
  List.length_take_le _ _

/-- Every post-processor output element comes from the deduplicated input. -/
theorem post_out_mem_dedup (results : List SearchResult) (strategy : RetrievalStrategy) :
    ∀ r ∈ post_process_results results strategy, r ∈ dedup_results results := by
  intro r hr
  exact (sortByScoreDesc_perm (dedup_results results)).mem_iff.mp
    (List.mem_of_mem_filter (List.mem_of_mem_take hr))

/-- Stability through the whole pipeline: restricted to any single score
value, the output is a prefix of the deduplicated input's restriction. -/
theorem post_out_stable (results : List SearchResult) (strategy : RetrievalStrategy)
    (s : Rat) :
    (post_process_results results strategy).filter (fun r => decide (r.score = s))
      <+: (dedup_results results).filter (fun r => decide (r.score = s)) := by
  have hstep1 : (post_process_results results strategy).filter (fun r => decide (r.score = s))
      <+: ((sortByScoreDesc (dedup_results results)).filter
            (fun r => strategy.parameters.score_threshold.getD (Rat.mk' 1 2) ≤ r.score)).filter
          (fun r => decide (r.score = s)) :=
    filterPrefixOfPrefix _ (takeIsPrefixOf _ _)
  rw [List.filter_filter] at hstep1
  by_cases hts : strategy.parameters.score_threshold.getD (Rat.mk' 1 2) ≤ s
  · have he : (sortByScoreDesc (dedup_results results)).filter
        (fun a => decide (a.score = s)
          && decide (strategy.parameters.score_threshold.getD (Rat.mk' 1 2) ≤ a.score))
        = (sortByScoreDesc (dedup_results results)).filter (fun r => decide (r.score = s)) := by
      apply List.filter_congr
      intro a _
      by_cases h : a.score = s
      · simp [h, hts]
      · simp [h]
    rw [he, filter_score_sortByScoreDesc] at hstep1
    exact hstep1
  · have he : (sortByScoreDesc (dedup_results results)).filter
        (fun a => decide (a.score = s)
          && decide (strategy.parameters.score_threshold.getD (Rat.mk' 1 2) ≤ a.score))
        = [] := by
      apply List.filter_eq_nil_iff.mpr
      intro a _
      by_cases h : a.score = s
      · simp [h, hts]
      · simp [h]
    rw [he] at hstep1
    rcases List.prefix_nil.mp hstep1 with hnil
    rw [hnil]
    exact ⟨_, rfl⟩

/-- C3: the post-processing pipeline deduplicates on the first 100 content
characters keeping first occurrences, sorts scores non-increasingly with
ties in post-dedup order, drops scores below the threshold, and truncates to
the limit last. -/
theorem post_process_pipeline (results : List SearchResult) (strategy : RetrievalStrategy) :
    List.Pairwise (fun a b => dedupKey a ≠ dedupKey b)
      (post_process_results results strategy)
  ∧ (∀ r ∈ post_process_results results strategy,
      results.find? (fun x => decide (dedupKey x = dedupKey r)) = some r)
  ∧ List.Pairwise (fun a b => b.score ≤ a.score)
      (post_process_results results strategy)
  ∧ (∀ s : Rat, (post_process_results results strategy).filter (fun r => decide (r.score = s))
      <+: (dedup_results results).filter (fun r => decide (r.score = s)))
  ∧ (∀ r ∈ post_process_results results strategy,
      strategy.parameters.score_threshold.getD (Rat.mk' 1 2) ≤ r.score)
  ∧ (post_process_results results strategy).length
      ≤ strategy.parameters.limit.getD 10 := by
  refine ⟨post_out_key_pairwise results strategy, ?_,
    post_out_sorted results strategy, post_out_stable results strategy,
    post_out_threshold results strategy, post_out_length results strategy⟩
  intro r hr
  exact (dedup_loop_find results [] r (post_out_mem_dedup results strategy r hr)).2

/-- Concrete inputs used by the pipeline witnesses. -/
def sampleResultA : SearchResult := { content := "alpha", score := 2 }

/-- Second concrete input result. -/
def sampleResultB : SearchResult := { content := "beta", score := 1 }

/-- Concrete strategy record used by the pipeline witnesses. -/
def sampleStrategy : RetrievalStrategy :=
  { strategy_type := .hybrid
    data_source := "zilliz_cloud"
    query := "q"
    original_query := "q"
    parameters := { limit := some 10, score_threshold := some 1 } }

/-- Witness for C3 at a concrete input: the lower-scored element sorts last
yet still satisfies the threshold bound reported by the theorem. -/
theorem post_process_pipeline_witness :
    sampleResultB ∈ post_process_results [sampleResultB, sampleResultA] sampleStrategy
    ∧ (1 : Rat) ≤ sampleResultB.score :=
  ⟨by decide,
    (post_process_pipeline [sampleResultB, sampleResultA] sampleStrategy).2.2.2.2.1
      sampleResultB (by decide)⟩

/-- C8: the post-processor is idempotent. -/
theorem post_process_idempotent (results : List SearchResult) (strategy : RetrievalStrategy) :
    post_process_results (post_process_results results strategy) strategy
      = post_process_results results strategy := by
  have h1 : dedup_results (post_process_results results strategy)
      = post_process_results results strategy :=
    dedup_loop_eq_self _ [] (post_out_key_pairwise results strategy) (by simp)
  have h2 : sortByScoreDesc (post_process_results results strategy)
      = post_process_results results strategy :=
    sortByScoreDesc_eq_self _ (post_out_sorted results strategy)
  have h3 : (post_process_results results strategy).filter
      (fun r => strategy.parameters.score_threshold.getD (Rat.mk' 1 2) ≤ r.score)
      = post_process_results results strategy := by
    apply List.filter_eq_self.mpr
    intro a ha
    exact decide_eq_true (post_out_threshold results strategy a ha)
  have h4 : (post_process_results results strategy).take
      (strategy.parameters.limit.getD 10)
      = post_process_results results strategy :=
    List.take_of_length_le (post_out_length results strategy)
  show ((sortByScoreDesc (dedup_results (post_process_results results strategy))).filter
      (fun r => strategy.parameters.score_threshold.getD (Rat.mk' 1 2) ≤ r.score)).take
      (strategy.parameters.limit.getD 10)
      = post_process_results results strategy
  rw [h1, h2, h3, h4]

/-- A raw result mapping returned by the Zilliz backend (`result.get` keys
used by `zilliz_search`). -/
structure ZillizRaw where
  content : Option String := none
  score : Option Rat := none
  metadata : Option (List (String × String)) := none
  id : Option String := none

/-- One term clause of the OpenSearch boolean filter. -/
inductive OsTermClause where
  | ws_id (v : String)
  | doc_type (v : String)
deriving DecidableEq

/-- The structured query body handed to the OpenSearch client (lines
292-307): multi-match query text and fields, filter clauses and size. -/
structure OpenSearchBody where
  query : String
  fields : List String
  filter : List OsTermClause
  size : Nat

/-- One hit of an OpenSearch response (`_source`, `_score`, `_id`). -/
structure OpenSearchHit where
  source : List (String × String)
  score : Rat
  id : String

/-- A raw DuckDuckGo result: either a plain string or a mapping with
optional snippet/body/title/link/href keys (lines 362-384). -/
inductive WebRaw where
  | str (s : String)
  | dict (snippet body title link href : Option String)

/-- The Zilliz client call: query, limit and native filter expression; may
fail with a connectivity error. -/
def ZillizClient := String → Nat → String → Except String (List ZillizRaw)

/-- The OpenSearch client call on a structured body; may fail. -/
def OpenSearchClient := OpenSearchBody → Except String (List OpenSearchHit)

/-- The DuckDuckGo call: query and max_results; may fail. -/
def WebBackend := String → Nat → Except String (List WebRaw)

/-- `RetrieverTools.__init__`: the two optional clients (left `none` when no
configuration was given or construction failed) and the always-present web
search tool. -/
structure RetrieverTools where
  zilliz_client : Option ZillizClient := none
  opensearch_client : Option OpenSearchClient := none
  web_backend : WebBackend

/-- `RetrieverTools._build_zilliz_filter` (lines 259-271). -/
def build_zilliz_filter (filters : Filters) : String :=
  let conditions :=
    (match filters.ws_id with
     | some v => ["ws_id == \x27" ++ v ++ "\x27"]
     | none => []) ++
    (match filters.time_range with
     | some v => if v = "recent" then ["create_time >= now() - interval \x277 days\x27"] else []
     | none => [])
  if conditions = [] then "" else String.intercalate " AND " conditions

/-- The per-result formatting of `zilliz_search` (lines 243-251). -/
def formatZillizResult (r : ZillizRaw) : SearchResult :=
  { content := r.content.getD ""
    score := r.score.getD 0
    metadata := r.metadata.getD []
    source := "zilliz_cloud"
    chunk_id := r.id }

/-- `RetrieverTools.zilliz_search` (lines 214-257): unconfigured client or a
failing backend call both reduce to the empty result list. -/
def zilliz_search (tools : RetrieverTools) (query : String) (filters : Filters)
    (parameters : Parameters) : Except String (List SearchResult) :=
  match tools.zilliz_client with
  | none => .ok []
  | some client =>
    match client query (parameters.limit.getD 10) (build_zilliz_filter filters) with
    | .error _ => .ok []
    | .ok results => .ok (results.map formatZillizResult)

/-- `RetrieverTools._build_opensearch_filter` (lines 329-339). -/
def build_opensearch_filter (filters : Filters) : List OsTermClause :=
  (match filters.ws_id with | some v => [OsTermClause.ws_id v] | none => []) ++
  (match filters.doc_type with | some v => [OsTermClause.doc_type v] | none => [])

/-- The query body built by `opensearch_search` (lines 292-307). -/
def mk_opensearch_body (query : String) (filters : Filters)
    (parameters : Parameters) : OpenSearchBody :=
  { query := query
    fields := parameters.search_fields.getD ["*"]
    filter := build_opensearch_filter filters
    size := parameters.limit.getD 10 }

/-- The per-hit formatting of `opensearch_search` (lines 313-321). -/
def formatOpenSearchHit (hit : OpenSearchHit) : SearchResult :=
  { content := (List.lookup "content" hit.source).getD ""
    score := hit.score
    metadata := hit.source
    source := "opensearch"
    chunk_id := some hit.id }

/-- `RetrieverTools.opensearch_search` (lines 273-327). -/
def opensearch_search (tools : RetrieverTools) (query : String) (filters : Filters)
    (parameters : Parameters) : Except String (List SearchResult) :=
  match tools.opensearch_client with
  | none => .ok []
  | some client =>
    match client (mk_opensearch_body query filters parameters) with
    | .error _ => .ok []
    | .ok hits => .ok (hits.map formatOpenSearchHit)

/-- The synthetic rank-based web score `1.0 - idx * 0.1` (lines 368, 380). -/
def webScore (idx : Nat) : Rat := 1 - (idx : Rat) * Rat.mk' 1 10

/-- The per-result formatting of `web_search` (lines 362-384), accepting
both mapping-shaped and string-shaped raw results. -/
def formatWebResult (idx : Nat) (r : WebRaw) : SearchResult :=
  match r with
  | .str s =>
    { content := s, score := webScore idx, metadata := [], source := "web", chunk_id := none }
  | .dict snippet body title link href =>
    { content := snippet.getD (body.getD "")
      score := webScore idx
      metadata := [("title", title.getD ""), ("link", link.getD (href.getD ""))]
      source := "web"
      chunk_id := none }

/-- `RetrieverTools.web_search` (lines 341-390); note the web default limit
is 5, not 10. -/
def web_search (tools : RetrieverTools) (query : String)
    (parameters : Parameters) : Except String (List SearchResult) :=
  match tools.web_backend query (parameters.limit.getD 5) with
  | .error _ => .ok []
  | .ok results => .ok (results.enum.map (fun p => formatWebResult p.1 p.2))

/-- The Zilliz dispatcher always returns an `ok` list. -/
theorem zilliz_search_ok (tools : RetrieverTools) (q : String) (f : Filters)
    (p : Parameters) : ∃ l, zilliz_search tools q f p = .ok l := by
  rcases htz : tools.zilliz_client with _ | client
  · exact ⟨[], by simp [zilliz_search, htz]⟩
  · rcases hc : client q (p.limit.getD 10) (build_zilliz_filter f) with e | rs
    · exact ⟨[], by simp [zilliz_search, htz, hc]⟩
    · exact ⟨rs.map formatZillizResult, by simp [zilliz_search, htz, hc]⟩

/-- The OpenSearch dispatcher always returns an `ok` list. -/
theorem opensearch_search_ok (tools : RetrieverTools) (q : String) (f : Filters)
    (p : Parameters) : ∃ l, opensearch_search tools q f p = .ok l := by
  rcases hto : tools.opensearch_client with _ | client
  · exact ⟨[], by simp [opensearch_search, hto]⟩
  · rcases hc : client (mk_opensearch_body q f p) with e | hits
    · exact ⟨[], by simp [opensearch_search, hto, hc]⟩
    · exact ⟨hits.map formatOpenSearchHit, by simp [opensearch_search, hto, hc]⟩

/-- The web dispatcher always returns an `ok` list. -/
theorem web_search_ok (tools : RetrieverTools) (q : String) (p : Parameters) :
    ∃ l, web_search tools q p = .ok l := by
  rcases hw : tools.web_backend q (p.limit.getD 5) with e | rs
  · exact ⟨[], by simp [web_search, hw]⟩
  · exact ⟨rs.enum.map (fun x => formatWebResult x.1 x.2), by simp [web_search, hw]⟩

/-- C6: none of the three dispatchers ever lets an error escape: an
unconfigured client returns the empty sequence immediately, and a failing
backend call is caught and also reduces to the empty sequence, so the two
situations are observably identical to the caller. -/
theorem dispatchers_fail_soft (tools : RetrieverTools) (q : String) (f : Filters)
    (p : Parameters) :
    (∃ l, zilliz_search tools q f p = .ok l)
  ∧ (∃ l, opensearch_search tools q f p = .ok l)
  ∧ (∃ l, web_search tools q p = .ok l)
  ∧ (tools.zilliz_client = none → zilliz_search tools q f p = .ok [])
  ∧ (tools.opensearch_client = none → opensearch_search tools q f p = .ok [])
  ∧ (∀ client e, tools.zilliz_client = some client →
      client q (p.limit.getD 10) (build_zilliz_filter f) = .error e →
      zilliz_search tools q f p = .ok [])
  ∧ (∀ client e, tools.opensearch_client = some client →
      client (mk_opensearch_body q f p) = .error e →
      opensearch_search tools q f p = .ok [])
  ∧ (∀ e, tools.web_backend q (p.limit.getD 5) = .error e →
      web_search tools q p = .ok []) := by
  refine ⟨zilliz_search_ok tools q f p, opensearch_search_ok tools q f p,
    web_search_ok tools q p, ?_, ?_, ?_, ?_, ?_⟩
  · intro h; simp [zilliz_search, h]
  · intro h; simp [opensearch_search, h]
  · intro client e hc he; simp [zilliz_search, hc, he]
  · intro client e hc he; simp [opensearch_search, hc, he]
  · intro e he; simp [web_search, he]

/-- Tools whose every backend call fails with a connectivity error. -/
def brokenTools : RetrieverTools :=
  { zilliz_client := some (fun _ _ _ => .error "down")
    opensearch_client := some (fun _ => .error "down")
    web_backend := fun _ _ => .error "down" }

/-- Tools with no configured clients and an idle web backend. -/
def offlineTools : RetrieverTools :=
  { web_backend := fun _ _ => .ok [] }

/-- Witness for C6: failing backends and missing clients both yield `ok []`
at concrete inputs. -/
theorem dispatchers_fail_soft_witness :
    zilliz_search brokenTools "q" {} {} = .ok []
  ∧ opensearch_search brokenTools "q" {} {} = .ok []
  ∧ web_search brokenTools "q" {} = .ok []
  ∧ zilliz_search offlineTools "q" {} {} = .ok [] :=
  ⟨(dispatchers_fail_soft brokenTools "q" {} {}).2.2.2.2.2.1
      (fun _ _ _ => .error "down") "down" rfl rfl,
   (dispatchers_fail_soft brokenTools "q" {} {}).2.2.2.2.2.2.1
      (fun _ => .error "down") "down" rfl rfl,
   (dispatchers_fail_soft brokenTools "q" {} {}).2.2.2.2.2.2.2 "down" rfl,
   (dispatchers_fail_soft offlineTools "q" {} {}).2.2.2.1 rfl⟩

/-- An event handler: receives the event (identified by its tag) and may
raise, embedded as `Except`. -/
abbrev Handler := String → Except String Unit

/-- One emission record: the event tag together with the outcome of every
handler invocation, in registration order. -/
abbrev EmitRecord := String × List (Except String Unit)

/-- `RetrieverAgent._emit_event` (lines 633-647): handlers run sequentially
in registration order; a raising handler's error is caught and recorded,
never propagated and never stopping the remaining handlers. -/
def emit_event (handlers : List Handler) (eventTag : String) :
    List (Except String Unit) :=
  handlers.map (fun h => h eventTag)

/-- `RetrieverAgent.__init__` state used by `search`: the toolkit, the
events switch and the registered handler list. -/
structure RetrieverAgent where
  name : String := "Retriever Agent"
  tools : RetrieverTools
  enable_events : Bool := true
  event_handlers : List Handler := []

/-- `if self.enable_events: await self._emit_event(tag, ...)`. -/
def emitIf (agent : RetrieverAgent) (eventTag : String) : List EmitRecord :=
  if agent.enable_events then [(eventTag, emit_event agent.event_handlers eventTag)]
  else []

/-- The dispatch of `_execute_search_strategy` on the data source (lines
576-592); an unknown data source leaves the empty result list. -/
def dispatch_except (tools : RetrieverTools) (s : RetrievalStrategy) :
    Except String (List SearchResult) :=
  if s.data_source = "zilliz_cloud" then
    zilliz_search tools s.query s.filters s.parameters
  else if s.data_source = "opensearch" then
    opensearch_search tools s.query s.filters s.parameters
  else if s.data_source = "duckduckgo" then
    web_search tools s.query s.parameters
  else .ok []

/-- `RetrieverAgent._execute_search_strategy` (lines 571-604): a raising
dispatch is caught leaving the empty list (and skipping the completion
event); otherwise the results are returned and `ToolCallCompleted` is
emitted. -/
def execute_search_strategy (agent : RetrieverAgent) (strategy : RetrievalStrategy) :
    List SearchResult × List EmitRecord :=
  match dispatch_except agent.tools strategy with
  | .error _ => ([], [])
  | .ok results => (results, emitIf agent "ToolCallCompleted")

/-- The fallback `RetrievalStrategy` constructed in `search` (lines
504-511): same query, original query, filters and parameters; the
fallback's tag and data source; no further fallback. -/
def mkFallbackStrategy (s : RetrievalStrategy) (fb : FallbackDict)
    (st : SearchStrategy) : RetrievalStrategy :=
  { strategy_type := st
    data_source := fb.data_source
    query := s.query
    original_query := s.original_query
    filters := s.filters
    parameters := s.parameters }

/-- Steps 2-3 of `search` (lines 492-512): primary dispatch, then exactly
one fallback dispatch when the primary result list is empty and a fallback
exists (re-parsing the fallback tag can raise). -/
def run_dispatch_phase (agent : RetrieverAgent) (s : RetrievalStrategy) :
    Except String (List SearchResult × List EmitRecord) :=
  if (execute_search_strategy agent s).1 = [] then
    match s.fallback_strategy with
    | some fb =>
      match SearchStrategy.ofString fb.strategy_type with
      | .error e => .error e
      | .ok st =>
        .ok ((execute_search_strategy agent (mkFallbackStrategy s fb st)).1,
          (execute_search_strategy agent s).2
            ++ emitIf agent "FallbackStrategyActivated"
            ++ (execute_search_strategy agent (mkFallbackStrategy s fb st)).2)
    | none => .ok (execute_search_strategy agent s)
  else .ok (execute_search_strategy agent s)

/-- Lines 479-482 of `search`: rebuild the `RetrievalStrategy` record from
the strategy dictionary, converting the string tag back to the enum (a step
that raises on an invalid tag). -/
def strategyOf (query : String) (context : Context) : Except String RetrievalStrategy :=
  match SearchStrategy.ofString (think_retrieval_strategy query context).strategy_type with
  | .error e => .error e
  | .ok st =>
    .ok { strategy_type := st
          data_source := (think_retrieval_strategy query context).data_source
          query := (think_retrieval_strategy query context).query
          original_query := (think_retrieval_strategy query context).original_query
          filters := (think_retrieval_strategy query context).filters
          parameters := (think_retrieval_strategy query context).parameters
          fallback_strategy := (think_retrieval_strategy query context).fallback_strategy }

/-- The error payload of the failure response. -/
structure ErrorInfo where
  code : String
  message : String
deriving DecidableEq

/-- The response dictionary of `search`; the wall-clock fields (timestamp,
duration) are outside the model. -/
structure SearchResponse where
  success : Bool
  results : List SearchResult
  metaQuery : String
  metaRewritten : Option String := none
  metaStrategyUsed : Option String := none
  metaDataSource : Option String := none
  metaTotalResults : Option Nat := none
  metaErrorMessage : Option String := none
  error : Option ErrorInfo := none

/-- The `except` branch return value of `search` (lines 557-569). -/
def mkFailureResponse (query e : String) : SearchResponse :=
  { success := false
    results := []
    metaQuery := query
    metaErrorMessage := some e
    error := some { code := "RETRIEVAL_FAILED", message := e } }

/-- The `try` block of `search` (lines 469-544): lifecycle events, strategy
selection, dispatch phase, post-processing and success-response assembly. -/
def searchBody (agent : RetrieverAgent) (query : String) (context : Context) :
    Except String (SearchResponse × List EmitRecord) :=
  match strategyOf query context with
  | .error e => .error e
  | .ok strategy =>
    match run_dispatch_phase agent strategy with
    | .error e => .error e
    | .ok (results, log2) =>
      .ok ({ success := true
             results := post_process_results results strategy
             metaQuery := query
             metaRewritten := some strategy.query
             metaStrategyUsed := some strategy.strategy_type.value
             metaDataSource := some strategy.data_source
             metaTotalResults := some (post_process_results results strategy).length }
          , emitIf agent "RetrievalStarted" ++ emitIf agent "RetrievalStrategyCompleted"
            ++ log2 ++ emitIf agent "RetrievalCompleted")

/-- The `try/except` boundary of `search` (lines 469, 546-569): an ok body
passes through; an exception yields the error event and the structured
failure response. -/
def searchCatch (agent : RetrieverAgent) (query : String)
    (body : Except String (SearchResponse × List EmitRecord)) :
    SearchResponse × List EmitRecord :=
  match body with
  | .ok r => r
  | .error e => (mkFailureResponse query e, emitIf agent "RetrievalError")

/-- `RetrieverAgent.search` (lines 445-569). -/
def search (agent : RetrieverAgent) (query : String) (context : Context) :
    SearchResponse × List EmitRecord :=
  searchCatch agent query (searchBody agent query context)

/-- The dispatch step never propagates an error. -/
theorem dispatch_except_ok (tools : RetrieverTools) (s : RetrievalStrategy) :
    ∃ l, dispatch_except tools s = .ok l := by
  by_cases h1 : s.data_source = "zilliz_cloud"
  · simpa [dispatch_except, h1] using zilliz_search_ok tools s.query s.filters s.parameters
  · by_cases h2 : s.data_source = "opensearch"
    · simpa [dispatch_except, h1, h2]
        using opensearch_search_ok tools s.query s.filters s.parameters
    · by_cases h3 : s.data_source = "duckduckgo"
      · simpa [dispatch_except, h1, h2, h3] using web_search_ok tools s.query s.parameters
      · exact ⟨[], by simp [dispatch_except, h1, h2, h3]⟩

/-- The result component of the dispatch step, as a total function of the
toolkit (used to separate results from event logs). -/
def dispatch_results (tools : RetrieverTools) (s : RetrievalStrategy) : List SearchResult :=
  match dispatch_except tools s with
  | .ok l => l
  | .error _ => []

/-- One strategy execution yields the dispatch results plus one
`ToolCallCompleted` emission. -/
theorem execute_search_strategy_eq (agent : RetrieverAgent) (s : RetrievalStrategy) :
    execute_search_strategy agent s
      = (dispatch_results agent.tools s, emitIf agent "ToolCallCompleted") := by
  obtain ⟨l, hl⟩ := dispatch_except_ok agent.tools s
  simp [execute_search_strategy, dispatch_results, hl]

/-- The result component of the whole dispatch phase, as a function of the
toolkit only. -/
def run_dispatch_results (tools : RetrieverTools) (s : RetrievalStrategy) :
    Except String (List SearchResult) :=
  if dispatch_results tools s = [] then
    match s.fallback_strategy with
    | some fb =>
      match SearchStrategy.ofString fb.strategy_type with
      | .error e => .error e
      | .ok st => .ok (dispatch_results tools (mkFallbackStrategy s fb st))
    | none => .ok (dispatch_results tools s)
  else .ok (dispatch_results tools s)

/-- The dispatch phase's result component ignores the handler list. -/
theorem run_dispatch_phase_fst (agent : RetrieverAgent) (s : RetrievalStrategy) :
    Except.map Prod.fst (run_dispatch_phase agent s)
      = run_dispatch_results agent.tools s := by
  rw [run_dispatch_phase, run_dispatch_results, execute_search_strategy_eq]
  by_cases h : dispatch_results agent.tools s = []
  · simp only [h, if_pos trivial]
    cases s.fallback_strategy with
    | none => simp [Except.map]
    | some fb =>
      cases hst : SearchStrategy.ofString fb.strategy_type with
      | error e => simp [hst, Except.map]
      | ok st => simp [hst, Except.map, execute_search_strategy_eq]
  · simp [h, Except.map]

/-- The response computed by a successful body, as a function of the
toolkit only. -/
def search_response_core (tools : RetrieverTools) (query : String)
    (context : Context) : Except String SearchResponse :=
  match strategyOf query context with
  | .error e => .error e
  | .ok strategy =>
    match run_dispatch_results tools strategy with
    | .error e => .error e
    | .ok results =>
      .ok { success := true
            results := post_process_results results strategy
            metaQuery := query
            metaRewritten := some strategy.query
            metaStrategyUsed := some strategy.strategy_type.value
            metaDataSource := some strategy.data_source
            metaTotalResults := some (post_process_results results strategy).length }

/-- The body's response component ignores the handler list. -/
theorem searchBody_fst (agent : RetrieverAgent) (query : String) (context : Context) :
    Except.map Prod.fst (searchBody agent query context)
      = search_response_core agent.tools query context := by
  rw [searchBody, search_response_core]
  cases hsx : strategyOf query context with
  | error e => simp [Except.map]
  | ok strategy =>
    have h := run_dispatch_phase_fst agent strategy
    cases hrp : run_dispatch_phase agent strategy with
    | error e =>
      have h2 : run_dispatch_results agent.tools strategy = .error e := by
        rw [← h, hrp]; rfl
      simp [hrp, Except.map, h2]
    | ok pr =>
      obtain ⟨results, log2⟩ := pr
      have h2 : run_dispatch_results agent.tools strategy = .ok results := by
        rw [← h, hrp]; rfl
      simp [hrp, Except.map, h2]

/-- The response returned by `search` depends only on the toolkit and the
inputs: handlers never influence it. -/
theorem search_fst (agent : RetrieverAgent) (query : String) (context : Context) :
    (search agent query context).1
      = (match search_response_core agent.tools query context with
         | .ok r => r
         | .error e => mkFailureResponse query e) := by
  have h := searchBody_fst agent query context
  rw [search]
  cases hb : searchBody agent query context with
  | error e =>
    have h2 : search_response_core agent.tools query context = .error e := by
      rw [← h, hb]; rfl
    simp [searchCatch, h2]
  | ok r =>
    have h2 : search_response_core agent.tools query context = .ok r.1 := by
      rw [← h, hb]; rfl
    simp [searchCatch, h2]

/-- C9: event notification is per-listener isolated and ordered: handlers
are invoked sequentially in registration order (the outcome list matches
the handler list positionally), and handler outcomes — including raising
handlers — never influence the response `search` returns. -/
theorem event_notification_isolated (handlers : List Handler) (eventTag : String)
    (i : Nat) (nm : String) (tools : RetrieverTools) (en : Bool)
    (h1 h2 : List Handler) (q : String) (ctx : Context) :
    (emit_event handlers eventTag).length = handlers.length
  ∧ (emit_event handlers eventTag)[i]? = (handlers[i]?).map (fun h => h eventTag)
  ∧ (search { name := nm, tools := tools, enable_events := en, event_handlers := h1 } q ctx).1
      = (search { name := nm, tools := tools, enable_events := en, event_handlers := h2 } q ctx).1 := by
  refine ⟨List.length_map _ _, ?_, ?_⟩
  · simp [emit_event]
  · rw [search_fst, search_fst]

/-- C5: `search` never raises: the try/except boundary turns any body
exception into the error event plus the structured failure response
(success false, empty results, RETRIEVAL_FAILED), while a successful body
always carries success true and no error. -/
theorem search_never_raises (agent : RetrieverAgent) (q : String) (ctx : Context)
    (body : Except String (SearchResponse × List EmitRecord)) (e : String) :
    search agent q ctx = searchCatch agent q (searchBody agent q ctx)
  ∧ (body = .error e →
      searchCatch agent q body = (mkFailureResponse q e, emitIf agent "RetrievalError"))
  ∧ (mkFailureResponse q e).success = false
  ∧ (mkFailureResponse q e).results = []
  ∧ (mkFailureResponse q e).error = some { code := "RETRIEVAL_FAILED", message := e }
  ∧ (∀ resp log, searchBody agent q ctx = .ok (resp, log) →
      resp.success = true ∧ resp.error = none) := by
  refine ⟨rfl, ?_, rfl, rfl, rfl, ?_⟩
  · intro hb; rw [hb]; rfl
  · intro resp log hb
    rw [searchBody] at hb
    split at hb
    · exact absurd hb (by simp)
    · split at hb
      · exact absurd hb (by simp)
      · simp only [Except.ok.injEq, Prod.mk.injEq] at hb
        obtain ⟨hresp, -⟩ := hb
        rw [← hresp]
        exact ⟨rfl, rfl⟩

/-- An agent over the unconfigured toolkit, with default settings. -/
def demoAgent : RetrieverAgent := { tools := offlineTools }

/-- Witness for C5: a concrete raised exception produces exactly the
structured failure pair. -/
theorem search_never_raises_witness :
    searchCatch demoAgent "x" (.error "boom")
      = (mkFailureResponse "x" "boom", emitIf demoAgent "RetrievalError") :=
  (search_never_raises demoAgent "x" {} (.error "boom") "boom").2.1 rfl

/-- C4: when the primary dispatch is empty and a fallback exists, exactly
one fallback dispatch runs, on a strategy sharing the rewritten query,
filters and parameters but carrying the fallback tag and data source, and
its results replace the empty set before post-processing; a non-empty
primary dispatch or a missing fallback leaves the primary results and emits
no fallback events. -/
theorem search_fallback_dispatch (agent : RetrieverAgent) (q : String) (ctx : Context)
    (s : RetrievalStrategy) (hs : strategyOf q ctx = .ok s) :
    (∀ fb st, s.fallback_strategy = some fb →
      SearchStrategy.ofString fb.strategy_type = .ok st →
      (execute_search_strategy agent s).1 = [] →
      ((mkFallbackStrategy s fb st).query = s.query
        ∧ (mkFallbackStrategy s fb st).original_query = s.original_query
        ∧ (mkFallbackStrategy s fb st).filters = s.filters
        ∧ (mkFallbackStrategy s fb st).parameters = s.parameters
        ∧ (mkFallbackStrategy s fb st).strategy_type = st
        ∧ (mkFallbackStrategy s fb st).data_source = fb.data_source)
      ∧ run_dispatch_phase agent s
          = .ok ((execute_search_strategy agent (mkFallbackStrategy s fb st)).1,
              (execute_search_strategy agent s).2
                ++ emitIf agent "FallbackStrategyActivated"
                ++ (execute_search_strategy agent (mkFallbackStrategy s fb st)).2)
      ∧ (search agent q ctx).1.results
          = post_process_results (execute_search_strategy agent (mkFallbackStrategy s fb st)).1 s
      ∧ (search agent q ctx).2
          = emitIf agent "RetrievalStarted" ++ emitIf agent "RetrievalStrategyCompleted"
            ++ ((execute_search_strategy agent s).2
              ++ emitIf agent "FallbackStrategyActivated"
              ++ (execute_search_strategy agent (mkFallbackStrategy s fb st)).2)
            ++ emitIf agent "RetrievalCompleted")
  ∧ ((execute_search_strategy agent s).1 ≠ [] →
      run_dispatch_phase agent s = .ok (execute_search_strategy agent s)
      ∧ (search agent q ctx).1.results
          = post_process_results (execute_search_strategy agent s).1 s
      ∧ (search agent q ctx).2
          = emitIf agent "RetrievalStarted" ++ emitIf agent "RetrievalStrategyCompleted"
            ++ (execute_search_strategy agent s).2 ++ emitIf agent "RetrievalCompleted")
  ∧ (s.fallback_strategy = none →
      run_dispatch_phase agent s = .ok (execute_search_strategy agent s)
      ∧ (search agent q ctx).1.results
          = post_process_results (execute_search_strategy agent s).1 s
      ∧ (search agent q ctx).2
          = emitIf agent "RetrievalStarted" ++ emitIf agent "RetrievalStrategyCompleted"
            ++ (execute_search_strategy agent s).2 ++ emitIf agent "RetrievalCompleted") := by
  have hcommon : run_dispatch_phase agent s = .ok (execute_search_strategy agent s) →
      (search agent q ctx).1.results
          = post_process_results (execute_search_strategy agent s).1 s
      ∧ (search agent q ctx).2
          = emitIf agent "RetrievalStarted" ++ emitIf agent "RetrievalStrategyCompleted"
            ++ (execute_search_strategy agent s).2 ++ emitIf agent "RetrievalCompleted" := by
    intro hphase
    have hsearch : search agent q ctx
        = ({ success := true
             results := post_process_results (execute_search_strategy agent s).1 s
             metaQuery := q
             metaRewritten := some s.query
             metaStrategyUsed := some s.strategy_type.value
             metaDataSource := some s.data_source
             metaTotalResults := some (post_process_results (execute_search_strategy agent s).1 s).length }
          , emitIf agent "RetrievalStarted" ++ emitIf agent "RetrievalStrategyCompleted"
            ++ (execute_search_strategy agent s).2 ++ emitIf agent "RetrievalCompleted") := by
      rw [search]
      simp only [searchBody, hs, hphase]
      rfl
    exact ⟨by rw [hsearch], by rw [hsearch]⟩
  refine ⟨?_, ?_, ?_⟩
  · intro fb st hfb hst hempty
    have hphase : run_dispatch_phase agent s
        = .ok ((execute_search_strategy agent (mkFallbackStrategy s fb st)).1,
            (execute_search_strategy agent s).2
              ++ emitIf agent "FallbackStrategyActivated"
              ++ (execute_search_strategy agent (mkFallbackStrategy s fb st)).2) := by
      rw [run_dispatch_phase, if_pos hempty, hfb]
      simp only [hst]
    have hsearch : search agent q ctx
        = ({ success := true
             results := post_process_results
                (execute_search_strategy agent (mkFallbackStrategy s fb st)).1 s
             metaQuery := q
             metaRewritten := some s.query
             metaStrategyUsed := some s.strategy_type.value
             metaDataSource := some s.data_source
             metaTotalResults := some (post_process_results
                (execute_search_strategy agent (mkFallbackStrategy s fb st)).1 s).length }
          , emitIf agent "RetrievalStarted" ++ emitIf agent "RetrievalStrategyCompleted"
            ++ ((execute_search_strategy agent s).2
              ++ emitIf agent "FallbackStrategyActivated"
              ++ (execute_search_strategy agent (mkFallbackStrategy s fb st)).2)
            ++ emitIf agent "RetrievalCompleted") := by
      rw [search]
      simp only [searchBody, hs, hphase]
      rfl
    exact ⟨⟨rfl, rfl, rfl, rfl, rfl, rfl⟩, hphase, by rw [hsearch], by rw [hsearch]⟩
  · intro hne
    have hphase : run_dispatch_phase agent s = .ok (execute_search_strategy agent s) := by
      rw [run_dispatch_phase, if_neg hne]
    exact ⟨hphase, hcommon hphase⟩
  · intro hnone
    have hphase : run_dispatch_phase agent s = .ok (execute_search_strategy agent s) := by
      rw [run_dispatch_phase]
      by_cases hempty : (execute_search_strategy agent s).1 = []
      · rw [if_pos hempty, hnone]
      · rw [if_neg hempty]
    exact ⟨hphase, hcommon hphase⟩

/-- The strategy record `search` builds for the query "AI" with empty
context (used as the C4 witness input). -/
def demoStrategy : RetrievalStrategy :=
  { strategy_type := .hybrid
    data_source := "zilliz_cloud"
    query := "AI 相关信息和详细内容"
    original_query := "AI"
    filters := {}
    parameters := { limit := some 10
                    score_threshold := some (Rat.mk' 1 2)
                    vector_weight := some (Rat.mk' 7 10)
                    keyword_weight := some (Rat.mk' 3 10) }
    fallback_strategy := some { strategy_type := "keyword", data_source := "opensearch" } }

/-- Witness for C4: with no configured backends the primary dispatch for
"AI" is empty, and the dispatch phase runs exactly the one fallback
dispatch with its event emissions. -/
theorem search_fallback_dispatch_witness :
    run_dispatch_phase demoAgent demoStrategy
      = .ok ((execute_search_strategy demoAgent
            (mkFallbackStrategy demoStrategy ⟨"keyword", "opensearch"⟩ .keyword)).1,
          (execute_search_strategy demoAgent demoStrategy).2
            ++ emitIf demoAgent "FallbackStrategyActivated"
            ++ (execute_search_strategy demoAgent
                (mkFallbackStrategy demoStrategy ⟨"keyword", "opensearch"⟩ .keyword)).2) :=
  ((search_fallback_dispatch demoAgent "AI" {} demoStrategy rfl).1
    ⟨"keyword", "opensearch"⟩ .keyword rfl rfl rfl).2.1
